import Mathlib

/-!
Verification of the request/response normalization layer of a Linear
GraphQL MCP adapter (`src/linear/request.py`, `src/tools/issues.py`,
`src/tools/compound.py`).

The Python code manipulates decoded JSON values.  We model these with
`PyVal`: JSON objects become association lists (Python dicts have unique
keys; every operation below uses first-match lookup, which agrees with
dict lookup on duplicate-free lists), and float values are modelled as
rationals (the code never does float arithmetic — it only passes float
values through `float()` / `int()` truncation, which are exact on the
representable values this model covers).
-/

namespace Linear

/-- A decoded JSON / Python value, as handled by the adapter. -/
inductive PyVal where
  | none
  | bool (b : Bool)
  | int (n : Int)
  | float (q : Rat)
  | str (s : String)
  | list (xs : List PyVal)
  | dict (kvs : List (String × PyVal))
deriving Inhabited

/-- First-match association-list lookup: Python `d[k]` / `k in d`. -/
def lookupKV : List (String × PyVal) → String → Option PyVal
  | [], _ => Option.none
  | (k, v) :: rest, key => if k = key then some v else lookupKV rest key

/-- Python `d.get(key)` (default `None`). -/
def pyGet (kvs : List (String × PyVal)) (key : String) : PyVal :=
  (lookupKV kvs key).getD PyVal.none

/-- Python `d.get(key, default)`. -/
def pyGetD (kvs : List (String × PyVal)) (key : String) (d : PyVal) : PyVal :=
  (lookupKV kvs key).getD d

/-- Python truthiness of a decoded JSON value. -/
def truthy : PyVal → Bool
  | .none => false
  | .bool b => b
  | .int n => n ≠ 0
  | .float q => q ≠ 0
  | .str s => s ≠ ""
  | .list xs => !xs.isEmpty
  | .dict kvs => !kvs.isEmpty

/-- `isinstance(v, dict)`. -/
def isDict : PyVal → Bool
  | .dict _ => true
  | _ => false

/-- `isinstance(v, list)`. -/
def isList : PyVal → Bool
  | .list _ => true
  | _ => false

/-! ### Python textual rendering (`str(v)`)

The adapter applies `str` to arbitrary JSON values (`_str`, `_opt_str`,
`str(msg)`).  No claim observes the exact text of a stringified number or
container, so the renderings below only need to be total and to agree
with Python where it matters: `str` of a string is the string itself, and
`str` of everything else is a non-empty representation. -/

/-- The decimal digit character for `d < 10`. -/
def digitChar (d : Nat) : Char := Char.ofNat (48 + d)

/-- Decimal digit list of a natural number (never empty). -/
def natChars (n : Nat) : List Char :=
  if _h : n < 10 then [digitChar n]
  else natChars (n / 10) ++ [digitChar (n % 10)]
decreasing_by exact Nat.div_lt_self (by omega) (by omega)

/-- Decimal rendering of a natural number. -/
def natRepr (n : Nat) : String := String.mk (natChars n)

/-- Decimal rendering of an integer, Python `str(int)`. -/
def intRepr (n : Int) : String :=
  if n < 0 then "-" ++ natRepr n.natAbs else natRepr n.natAbs

/-- Rendering of a float value (modelled as a rational).  Abstract: the
code never inspects the text of a stringified float, it only needs to be
non-empty. -/
def floatRepr (q : Rat) : String :=
  if q.den = 1 then intRepr q.num ++ ".0"
  else intRepr q.num ++ "/" ++ natRepr q.den

mutual

/-- Python `repr(v)` for decoded JSON values (element rendering inside
containers; quoting of strings is abstracted). -/
def pyRepr : PyVal → String
  | .none => "None"
  | .bool b => if b then "True" else "False"
  | .int n => intRepr n
  | .float q => floatRepr q
  | .str s => "\x27" ++ s ++ "\x27"
  | .list xs => "[" ++ pyReprList xs ++ "]"
  | .dict kvs => "\x7b" ++ pyReprKVs kvs ++ "\x7d"

/-- Comma-joined `repr` of list elements. -/
def pyReprList : List PyVal → String
  | [] => ""
  | [x] => pyRepr x
  | x :: rest => pyRepr x ++ ", " ++ pyReprList rest

/-- Comma-joined `repr` of dict entries. -/
def pyReprKVs : List (String × PyVal) → String
  | [] => ""
  | [(k, v)] => "\x27" ++ k ++ "\x27: " ++ pyRepr v
  | (k, v) :: rest => "\x27" ++ k ++ "\x27: " ++ pyRepr v ++ ", " ++ pyReprKVs rest

end

/-- Python `str(v)`: identity on strings, `repr`-style otherwise. -/
def pyStr : PyVal → String
  | .str s => s
  | v => pyRepr v

/-! ### Python numeric conversions (`int(v)`, `float(v)`)

`int()` / `float()` raise `TypeError`/`ValueError` on inconvertible
input; we model them as `Option`-valued, `Option.none` standing for the
raised exception.  String parsing follows Python's grammar for plain
decimal literals (surrounding whitespace, optional sign, digits with an
optional point and exponent); digit-group underscores and the special
float spellings `inf`/`nan` are outside the model. -/

/-- Whitespace recognized when `int("...")`/`float("...")` strips input. -/
def isSpaceChar (c : Char) : Bool :=
  c == ' ' || c == '\t' || c == '\n' || c == '\r'

/-- Strip leading and trailing whitespace. -/
def trimChars (l : List Char) : List Char :=
  ((l.dropWhile isSpaceChar).reverse.dropWhile isSpaceChar).reverse

/-- Consume an optional leading sign; returns (negative?, rest). -/
def readSign : List Char → Bool × List Char
  | '+' :: rest => (false, rest)
  | '-' :: rest => (true, rest)
  | l => (false, l)

/-- Value and count of a (possibly empty) all-digit prefix; `none` when a
non-digit occurs. -/
def digitsAux (l : List Char) : Option (Nat × Nat) :=
  l.foldl
    (fun acc c =>
      acc.bind fun vk =>
        if c.isDigit then some (vk.1 * 10 + (c.toNat - 48), vk.2 + 1)
        else Option.none)
    (some (0, 0))

/-- Python `int("...")` on the stripped character list. -/
def pyIntOfString (s : String) : Option Int :=
  let l := trimChars s.data
  let sr := readSign l
  match digitsAux sr.2 with
  | some (v, k) => if k = 0 then Option.none
                   else some (if sr.1 then -(v : Int) else (v : Int))
  | Option.none => Option.none

/-- Split at the first character satisfying `p`. -/
def splitAtChar (p : Char → Bool) : List Char → List Char × Option (List Char)
  | [] => ([], Option.none)
  | c :: rest =>
    if p c then ([], some rest)
    else
      let ab := splitAtChar p rest
      (c :: ab.1, ab.2)


/-- Python `float("...")` on the stripped character list. -/
def pyFloatOfString (s : String) : Option Rat :=
  let l := trimChars s.data
  let sr := readSign l
  let me := splitAtChar (fun c => c == 'e' || c == 'E') sr.2
  let ifp := splitAtChar (fun c => c == '.') me.1
  match digitsAux ifp.1, (ifp.2.map digitsAux).getD (some (0, 0)) with
  | some (iv, ic), some (fv, fc) =>
    if ic = 0 ∧ fc = 0 then Option.none
    else
      let expVal : Option Int :=
        match me.2 with
        | Option.none => some 0
        | some ep =>
          let esr := readSign ep
          match digitsAux esr.2 with
          | some (ev, ec) =>
            if ec = 0 then Option.none
            else some (if esr.1 then -(ev : Int) else (ev : Int))
          | Option.none => Option.none
      match expVal with
      | some e =>
        let mant : Int := ((iv * 10 ^ fc + fv : Nat) : Int)
        let n : Int := if sr.1 then -mant else mant
        some (if 0 ≤ e then mkRat (n * ((10 ^ e.toNat : Nat) : Int)) (10 ^ fc)
              else mkRat n (10 ^ fc * 10 ^ (-e).toNat))
      | Option.none => Option.none
  | _, _ => Option.none

/-- Truncation toward zero, Python `int(float)`. -/
def pyTrunc (q : Rat) : Int := q.num.tdiv (q.den : Int)

/-- Python `int(v)` on a decoded JSON value (`Option.none` = raises). -/
def pyIntConv : PyVal → Option Int
  | .none => Option.none
  | .bool b => some (if b then 1 else 0)
  | .int n => some n
  | .float q => some (pyTrunc q)
  | .str s => pyIntOfString s
  | .list _ => Option.none
  | .dict _ => Option.none

/-- Python `float(v)` on a decoded JSON value (`Option.none` = raises). -/
def pyFloatConv : PyVal → Option Rat
  | .none => Option.none
  | .bool b => some (if b then 1 else 0)
  | .int n => some ((n : Rat))
  | .float q => some q
  | .str s => pyFloatOfString s
  | .list _ => Option.none
  | .dict _ => Option.none

/-! ### Coercion Kit (`src/linear/request.py`, `_str` .. `_nested_str`)

Python defaulted parameters are made explicit (call sites below pass the
Python defaults). -/

/-- `_str(val, default="")`: `str(val) if val is not None else default`. -/
def _str (val : PyVal) (default : String) : String :=
  match val with
  | .none => default
  | v => pyStr v

/-- `_int(val, default=0)`: `default` on `None` or failed `int(val)`. -/
def _int (val : PyVal) (default : Int) : Int :=
  match val with
  | .none => default
  | v => (pyIntConv v).getD default

/-- `_float(val, default=0.0)`: `default` on `None` or failed `float(val)`. -/
def _float (val : PyVal) (default : Rat) : Rat :=
  match val with
  | .none => default
  | v => (pyFloatConv v).getD default

/-- `_opt_str(val)`: `str(val) if val is not None else None`. -/
def _opt_str (val : PyVal) : Option String :=
  match val with
  | .none => Option.none
  | v => some (pyStr v)

/-- `_bool(val, default=False)`: `bool(val) if val is not None else default`. -/
def _bool (val : PyVal) (default : Bool) : Bool :=
  match val with
  | .none => default
  | v => truthy v

/-- `_nested_str(obj, key)`: `_opt_str(obj.get(key))` when `obj` is a
dict, else `None`. -/
def _nested_str (obj : PyVal) (key : String) : Option String :=
  match obj with
  | .dict kvs => _opt_str (pyGet kvs key)
  | _ => Option.none

/-! ### Transport dispatch (`src/linear/request.py`, `graphql`)

The transport collaborator (`ctx.dispatch`) is external: its reply is the
input of the classification.  `DispatchResp.response` holds the body of
`resp.response` when that is non-`None`; `DispatchResp.error` holds the
message of `resp.error` when an error object is present. -/

/-- `LinearResult` (`src/linear/types.py`): `data` defaults to `None`
(Python `None` is `PyVal.none`), `error` to `None`. -/
structure LinearResult where
  success : Bool
  data : PyVal
  error : Option String

/-- The transport collaborator's reply as seen by `graphql`. -/
structure DispatchResp where
  success : Bool
  response : Option PyVal
  error : Option String

/-- The message surfaced for a non-empty GraphQL `errors` list:
`str(errors[0].get("message", "GraphQL error"))` when `errors[0]` is a
dict, else `"GraphQL error"`. -/
def firstErrorMessage (es : List PyVal) : String :=
  match es with
  | .dict kvs :: _ => pyStr (pyGetD kvs "message" (.str "GraphQL error"))
  | _ => "GraphQL error"

/-- Lines 75-85 of `graphql`: a mapping body is a protocol failure when
`errors` is a truthy list (`if errors and isinstance(errors, list)`),
else a success carrying `resp_body.get("data")`. -/
def classifyMappingBody (kvs : List (String × PyVal)) : LinearResult :=
  match pyGet kvs "errors" with
  | .list es =>
    if es.isEmpty then LinearResult.mk true (pyGet kvs "data") Option.none
    else LinearResult.mk false PyVal.none (some (firstErrorMessage es))
  | _ => LinearResult.mk true (pyGet kvs "data") Option.none

/-- The outcome classification of `graphql` (lines 72-91) applied to the
transport collaborator's reply. -/
def graphql_classify (resp : DispatchResp) : LinearResult :=
  match resp.success, resp.response with
  | true, some body =>
    match body with
    | .dict kvs => classifyMappingBody kvs
    | _ => LinearResult.mk true body Option.none
  | _, _ => LinearResult.mk false PyVal.none (some (resp.error.getD "Request failed"))

/-! ### Domain records (`src/linear/types.py`) -/

/-- `IssueInfo`. -/
structure IssueInfo where
  id : String
  identifier : String
  title : String
  description : Option String
  state : Option String
  priority : Int
  assignee : Option String
  labels : List String
  created_at : Option String
  updated_at : Option String
deriving DecidableEq

/-- `CommentInfo`. -/
structure CommentInfo where
  id : String
  body : String
  user : Option String
  created_at : Option String
deriving DecidableEq

/-- `WorkflowStateInfo` (`position` is a float, modelled as `Rat`). -/
structure WorkflowStateInfo where
  id : String
  name : String
  type : String
  color : Option String
  position : Rat
deriving DecidableEq

/-- `IssueContextInfo`. -/
structure IssueContextInfo where
  issue : IssueInfo
  comments : List CommentInfo
  states : List WorkflowStateInfo
deriving DecidableEq

/-! ### Node parsers (`src/tools/compound.py`; `_parse_issue` in
`src/tools/issues.py` is textually identical and is modelled by the same
definition) -/

/-- `_parse_issue(raw)`: coerce one raw issue node. -/
def _parse_issue (raw : List (String × PyVal)) : IssueInfo :=
  let state_node := pyGet raw "state"
  let assignee_node := pyGet raw "assignee"
  let label_nodes := pyGetD raw "labels" (.dict [])
  let labels : List String :=
    match label_nodes with
    | .dict lkvs =>
      match pyGetD lkvs "nodes" (.list []) with
      | .list ns =>
        ns.filterMap fun node =>
          match node with
          | .dict nk =>
            if truthy (pyGet nk "name") then some (_str (pyGet nk "name") "")
            else Option.none
          | _ => Option.none
      | _ => []
    | _ => []
  IssueInfo.mk
    (_str (pyGet raw "id") "")
    (_str (pyGet raw "identifier") "")
    (_str (pyGet raw "title") "")
    (_opt_str (pyGet raw "description"))
    (_nested_str state_node "name")
    (_int (pyGet raw "priority") 0)
    (_nested_str assignee_node "name")
    labels
    (_opt_str (pyGet raw "createdAt"))
    (_opt_str (pyGet raw "updatedAt"))

/-- `_parse_comment(raw)`: coerce one raw comment node. -/
def _parse_comment (raw : List (String × PyVal)) : CommentInfo :=
  CommentInfo.mk
    (_str (pyGet raw "id") "")
    (_str (pyGet raw "body") "")
    (_nested_str (pyGet raw "user") "name")
    (_opt_str (pyGet raw "createdAt"))

/-- `_parse_state(raw)`: coerce one raw workflow state node. -/
def _parse_state (raw : List (String × PyVal)) : WorkflowStateInfo :=
  WorkflowStateInfo.mk
    (_str (pyGet raw "id") "")
    (_str (pyGet raw "name") "")
    (_str (pyGet raw "type") "")
    (_opt_str (pyGet raw "color"))
    (_float (pyGet raw "position") 0)

/-! ### Tool bodies after dispatch

Each tool awaits `graphql(...)` and then branches on the `LinearResult`.
We model the post-dispatch part as a pure function of that result.  A
Python `for` over a non-iterable value raises `TypeError`; iteration is
modelled by `pyIterate` (`Option.none` = raises), and an uncaught
exception escaping the tool is the `ToolOut.raised` outcome. -/

/-- Outcome of a tool body: a record, a returned diagnostic string, or an
uncaught exception. -/
inductive ToolOut (α : Type) where
  | ok (a : α)
  | msg (s : String)
  | raised
deriving DecidableEq

/-- Python iteration over a decoded JSON value: lists yield elements,
strings their characters, dicts their keys; other values raise. -/
def pyIterate : PyVal → Option (List PyVal)
  | .list xs => some xs
  | .str s => some (s.data.map fun c => PyVal.str (String.mk [c]))
  | .dict kvs => some (kvs.map fun kv => PyVal.str kv.1)
  | _ => Option.none

/-- Python `a or b` for an optional string `a` (empty string is falsy). -/
def pyOrStr (a : Option String) (b : String) : String :=
  match a with
  | some s => if s = "" then b else s
  | Option.none => b

/-- `linear_issue_context` lines 168-171: the comments nodes value,
`issue_data.get("comments", {})` then `.get("nodes", [])` when a dict. -/
def commentNodesVal (ikvs : List (String × PyVal)) : PyVal :=
  match pyGetD ikvs "comments" (.dict []) with
  | .dict ckvs => pyGetD ckvs "nodes" (.list [])
  | _ => .list []

/-- `linear_issue_context` lines 175-177: the states nodes value, routed
through `team` and `states` with dict guards. -/
def stateNodesVal (ikvs : List (String × PyVal)) : PyVal :=
  let team_data := pyGetD ikvs "team" (.dict [])
  let states_data :=
    match team_data with
    | .dict tkvs => pyGetD tkvs "states" (.dict [])
    | _ => PyVal.dict []
  match states_data with
  | .dict skvs => pyGetD skvs "nodes" (.list [])
  | _ => .list []

/-- `[_parse_comment(n) for n in nodes if isinstance(n, dict)]`. -/
def parsedComments (ns : List PyVal) : List CommentInfo :=
  ns.filterMap fun n =>
    match n with
    | .dict ck => some (_parse_comment ck)
    | _ => Option.none

/-- `[_parse_state(n) for n in nodes if isinstance(n, dict)]`. -/
def parsedStates (ns : List PyVal) : List WorkflowStateInfo :=
  ns.filterMap fun n =>
    match n with
    | .dict sk => some (_parse_state sk)
    | _ => Option.none

/-- `linear_issue_context` (`src/tools/compound.py` lines 154-181) after
the dispatch returns `r`. -/
def issue_context_from_result (r : LinearResult) : ToolOut IssueContextInfo :=
  match r.success with
  | false => .msg (pyOrStr r.error "Failed to fetch issue context")
  | true =>
    match r.data with
    | .dict dk =>
      match pyGet dk "issue" with
      | .dict ikvs =>
        match pyIterate (commentNodesVal ikvs) with
        | Option.none => .raised
        | some cns =>
          match pyIterate (stateNodesVal ikvs) with
          | Option.none => .raised
          | some sns =>
            .ok (IssueContextInfo.mk (_parse_issue ikvs) (parsedComments cns)
              (parsedStates sns))
      | _ => .msg "Issue not found"
    | _ => .msg "Unexpected response"

/-- `linear_create_issue` (`src/tools/issues.py` lines 249-262) after the
dispatch returns `r`. -/
def create_issue_from_result (r : LinearResult) : ToolOut IssueInfo :=
  match r.success with
  | false => .msg (pyOrStr r.error "Failed to create issue")
  | true =>
    match r.data with
    | .dict dk =>
      match pyGet dk "issueCreate" with
      | .dict pk =>
        if truthy (pyGet pk "success") then
          match pyGet pk "issue" with
          | .dict ikvs => .ok (_parse_issue ikvs)
          | _ => .msg "No issue in response"
        else .msg "Issue creation failed"
      | _ => .msg "Issue creation failed"
    | _ => .msg "Unexpected response"

/-- `linear_update_issue` (`src/tools/issues.py` lines 329-342) after the
dispatch returns `r`. -/
def update_issue_from_result (r : LinearResult) : ToolOut IssueInfo :=
  match r.success with
  | false => .msg (pyOrStr r.error "Failed to update issue")
  | true =>
    match r.data with
    | .dict dk =>
      match pyGet dk "issueUpdate" with
      | .dict pk =>
        if truthy (pyGet pk "success") then
          match pyGet pk "issue" with
          | .dict ikvs => .ok (_parse_issue ikvs)
          | _ => .msg "No issue in response"
        else .msg "Issue update failed"
      | _ => .msg "Issue update failed"
    | _ => .msg "Unexpected response"

/-- The optional field arguments of `linear_update_issue`. -/
structure UpdateArgs where
  title : Option String
  description : Option String
  state_id : Option String
  assignee_id : Option String
  priority : Option Int
  label_ids : Option (List String)
  cycle_id : Option String
  project_id : Option String
  estimate : Option Int

/-- `input_data` as built by `linear_update_issue` lines 306-324: one
entry per provided argument, in source order. -/
def updateInputData (a : UpdateArgs) : List (String × PyVal) :=
  (match a.title with | some v => [("title", PyVal.str v)] | _ => [])
  ++ (match a.description with | some v => [("description", PyVal.str v)] | _ => [])
  ++ (match a.state_id with | some v => [("stateId", PyVal.str v)] | _ => [])
  ++ (match a.assignee_id with | some v => [("assigneeId", PyVal.str v)] | _ => [])
  ++ (match a.priority with | some v => [("priority", PyVal.int v)] | _ => [])
  ++ (match a.label_ids with
      | some v => [("labelIds", PyVal.list (v.map PyVal.str))] | _ => [])
  ++ (match a.cycle_id with | some v => [("cycleId", PyVal.str v)] | _ => [])
  ++ (match a.project_id with | some v => [("projectId", PyVal.str v)] | _ => [])
  ++ (match a.estimate with | some v => [("estimate", PyVal.int v)] | _ => [])

/-- `linear_update_issue` from argument collection onward.  `dispatched`
is the result the dispatch would produce; the boolean records whether the
dispatch path was reached (`if not input_data` short-circuits before any
request is built or sent). -/
def linear_update_issue_model (a : UpdateArgs) (dispatched : LinearResult) :
    ToolOut IssueInfo × Bool :=
  if (updateInputData a).isEmpty then (.msg "No fields to update", false)
  else (update_issue_from_result dispatched, true)

/-! ### Specification-side characterizations and concrete inputs -/

/-- Spec reading of label flattening (§4.3): the `name` fields of the
mapping-shaped entries that carry a non-empty (textual) name, in order. -/
def specLabelNames (ns : List PyVal) : List String :=
  ns.filterMap fun n =>
    match n with
    | .dict nk =>
      match lookupKV nk "name" with
      | some (.str s) => if s = "" then Option.none else some s
      | _ => Option.none
    | _ => Option.none

/-- The first `errors` entry is not a mapping, or carries no `message`
key. -/
def hasNoMessageField (e : PyVal) : Prop :=
  match e with
  | .dict kvs => lookupKV kvs "message" = Option.none
  | _ => True

/-- The message the code sources for a failure was itself the empty
string: the transport collaborator supplied `""`, or the first GraphQL
error's `message` field is `""`. -/
def upstreamEmptyMessage (resp : DispatchResp) : Prop :=
  resp.error = some "" ∨
  ∃ kvs es ekvs rest, resp.response = some (PyVal.dict kvs) ∧
    pyGet kvs "errors" = PyVal.list es ∧ es = PyVal.dict ekvs :: rest ∧
    lookupKV ekvs "message" = some (PyVal.str "")

/-- The mutation payload is not a mapping, or its own `success` field is
falsy (`if not isinstance(payload, dict) or not payload.get("success")`). -/
def payloadDeclaresFailure (p : PyVal) : Prop :=
  match p with
  | .dict pk => truthy (pyGet pk "success") = false
  | _ => True

/-- The `team` branch, its `states` sub-branch, or the `nodes` key is
absent or not a mapping. -/
def teamStatesMissing (ikvs : List (String × PyVal)) : Prop :=
  match lookupKV ikvs "team" with
  | Option.none => True
  | some (PyVal.dict tkvs) =>
    match lookupKV tkvs "states" with
    | Option.none => True
    | some (PyVal.dict skvs) => lookupKV skvs "nodes" = Option.none
    | some _ => True
  | some _ => True

/-- The `comments` branch is absent or not a mapping, or its `nodes` key
is absent. -/
def commentsBranchMissing (ikvs : List (String × PyVal)) : Prop :=
  match lookupKV ikvs "comments" with
  | Option.none => True
  | some (PyVal.dict ckvs) => lookupKV ckvs "nodes" = Option.none
  | some _ => True

/-- §8's example node list wrapped as a raw issue node:
`labels.nodes = [{"name":"b"},{"name":"a"},{"notname":"x"}]`. -/
def labelExampleNode : List (String × PyVal) :=
  [("labels", PyVal.dict [("nodes", PyVal.list
    [PyVal.dict [("name", PyVal.str "b")],
     PyVal.dict [("name", PyVal.str "a")],
     PyVal.dict [("notname", PyVal.str "x")]])])]

/-- A transport-success reply whose first GraphQL error carries the empty
message string. -/
def emptyMessageReply : DispatchResp :=
  DispatchResp.mk true
    (some (PyVal.dict [("errors",
      PyVal.list [PyVal.dict [("message", PyVal.str "")]])]))
    Option.none

/-- A successful dispatch whose response carries a numeric (hence
non-iterable) `labels`-style `nodes` value under `team.states`. -/
def numericStateNodesResult : LinearResult :=
  LinearResult.mk true
    (PyVal.dict [("issue", PyVal.dict [("team",
      PyVal.dict [("states", PyVal.dict [("nodes", PyVal.int 5)])])])])
    Option.none

/-- `linear_update_issue` called with every optional field argument
absent. -/
def noFieldsArgs : UpdateArgs :=
  UpdateArgs.mk Option.none Option.none Option.none Option.none Option.none
    Option.none Option.none Option.none Option.none

/-! ## Helper lemmas -/

theorem data_append (a b : String) : (a ++ b).data = a.data ++ b.data := by
  cases a; cases b; rfl

theorem natChars_ne_nil (n : Nat) : natChars n ≠ [] := by
  unfold natChars
  split
  · simp
  · simp

theorem natRepr_ne_empty (n : Nat) : natRepr n ≠ "" := by
  intro h
  exact natChars_ne_nil n (congrArg String.data h)

theorem append_ne_empty_right (a b : String) (h : b ≠ "") : a ++ b ≠ "" := by
  intro he
  apply h
  have hd := congrArg String.data he
  rw [data_append] at hd
  rcases List.append_eq_nil.mp hd with ⟨_, h2⟩
  cases b
  simp_all

theorem pyRepr_ne_empty (v : PyVal) : pyRepr v ≠ "" := by
  cases v with
  | none => simp [pyRepr]
  | bool b => cases b <;> simp [pyRepr]
  | int n =>
    show intRepr n ≠ ""
    unfold intRepr
    split
    · exact append_ne_empty_right _ _ (natRepr_ne_empty _)
    · exact natRepr_ne_empty _
  | float q =>
    show floatRepr q ≠ ""
    unfold floatRepr
    split
    · exact append_ne_empty_right _ _ (by decide)
    · exact append_ne_empty_right _ _ (natRepr_ne_empty _)
  | str s =>
    show "\x27" ++ s ++ "\x27" ≠ ""
    exact append_ne_empty_right _ _ (by decide)
  | list xs =>
    show "[" ++ pyReprList xs ++ "]" ≠ ""
    exact append_ne_empty_right _ _ (by decide)
  | dict kvs =>
    show "\x7b" ++ pyReprKVs kvs ++ "\x7d" ≠ ""
    exact append_ne_empty_right _ _ (by decide)

theorem pyStr_eq_empty (v : PyVal) (h : pyStr v = "") : v = .str "" := by
  cases v with
  | str s => rw [show pyStr (.str s) = s from rfl] at h; rw [h]
  | none => exact absurd h (pyRepr_ne_empty .none)
  | bool b => exact absurd h (pyRepr_ne_empty (.bool b))
  | int n => exact absurd h (pyRepr_ne_empty (.int n))
  | float q => exact absurd h (pyRepr_ne_empty (.float q))
  | list xs => exact absurd h (pyRepr_ne_empty (.list xs))
  | dict kvs => exact absurd h (pyRepr_ne_empty (.dict kvs))

theorem stateNodesVal_of_missing (ikvs : List (String × PyVal))
    (h : teamStatesMissing ikvs) : stateNodesVal ikvs = .list [] := by
  unfold stateNodesVal
  cases ht : lookupKV ikvs "team" with
  | none => simp [pyGetD, ht, lookupKV]
  | some tv =>
    cases tv with
    | dict tkvs =>
      cases hs : lookupKV tkvs "states" with
      | none => simp [pyGetD, ht, hs, lookupKV]
      | some sv =>
        cases sv with
        | dict skvs =>
          have hn : lookupKV skvs "nodes" = Option.none := by
            simpa [teamStatesMissing, ht, hs] using h
          simp [pyGetD, ht, hs, hn]
        | none => simp [pyGetD, ht, hs]
        | bool b => simp [pyGetD, ht, hs]
        | int n => simp [pyGetD, ht, hs]
        | float q => simp [pyGetD, ht, hs]
        | str s => simp [pyGetD, ht, hs]
        | list xs => simp [pyGetD, ht, hs]
    | none => simp [pyGetD, ht, lookupKV]
    | bool b => simp [pyGetD, ht, lookupKV]
    | int n => simp [pyGetD, ht, lookupKV]
    | float q => simp [pyGetD, ht, lookupKV]
    | str s => simp [pyGetD, ht, lookupKV]
    | list xs => simp [pyGetD, ht, lookupKV]

theorem commentNodesVal_of_missing (ikvs : List (String × PyVal))
    (h : commentsBranchMissing ikvs) : commentNodesVal ikvs = .list [] := by
  unfold commentsBranchMissing at h
  unfold commentNodesVal
  cases hc : lookupKV ikvs "comments" with
  | none => simp [pyGetD, hc, lookupKV]
  | some cv =>
    rw [hc] at h
    cases cv with
    | dict ckvs => simp_all [pyGetD, hc]
    | none => simp [pyGetD, hc]
    | bool b => simp [pyGetD, hc]
    | int n => simp [pyGetD, hc]
    | float q => simp [pyGetD, hc]
    | str s => simp [pyGetD, hc]
    | list xs => simp [pyGetD, hc]

/-! ## Claim theorems -/

/-- C6. Parser defaulting: parsing the empty mapping with each entity
parser (issue, comment, workflow state) raises nothing (the models are
total functions) and yields the record of declared defaults — required
text fields `""`, optional fields absent, priority `0`, position `0.0`,
labels `[]`. -/
theorem c6_parser_defaulting :
    _parse_issue [] = IssueInfo.mk "" "" "" Option.none Option.none 0 Option.none []
        Option.none Option.none
    ∧ _parse_comment [] = CommentInfo.mk "" "" Option.none Option.none
    ∧ _parse_state [] = WorkflowStateInfo.mk "" "" "" Option.none 0 :=
  ⟨rfl, rfl, rfl⟩

/-- C10. No-op update short-circuit: with every optional field argument
absent, `linear_update_issue` returns exactly `"No fields to update"` and
never reaches the dispatch — the outcome is the same for every value the
dispatch could have produced, and the dispatched flag is `false`. -/
theorem c10_noop_update_short_circuit :
    ∀ r : LinearResult, linear_update_issue_model noFieldsArgs r =
      (ToolOut.msg "No fields to update", false) :=
  fun _ => rfl

/-- C10 witness: the short-circuit at one concrete dispatch result. -/
theorem c10_noop_update_short_circuit_witness :
    linear_update_issue_model noFieldsArgs (LinearResult.mk true PyVal.none Option.none) =
      (ToolOut.msg "No fields to update", false) :=
  c10_noop_update_short_circuit (LinearResult.mk true PyVal.none Option.none)

/-- C5. Label flattening: for every raw issue node whose label nodes
carry textual `name` fields, the parsed labels are exactly the names of
the mapping-shaped entries with a non-empty name, in response order with
malformed entries dropped; and §8's example node list parses to
`["b", "a"]`. -/
theorem c5_label_flattening :
    (∀ (raw lkvs : List (String × PyVal)) (ns : List PyVal),
      pyGetD raw "labels" (PyVal.dict []) = PyVal.dict lkvs →
      pyGetD lkvs "nodes" (PyVal.list []) = PyVal.list ns →
      (∀ n ∈ ns, ∀ nk, n = PyVal.dict nk → ∀ v, lookupKV nk "name" = some v →
        ∃ s, v = PyVal.str s) →
      (_parse_issue raw).labels = specLabelNames ns)
    ∧ (_parse_issue labelExampleNode).labels = ["b", "a"] := by
  refine ⟨?_, rfl⟩
  intro raw lkvs ns h1 h2 hnames
  have hl : (_parse_issue raw).labels = ns.filterMap (fun node =>
      match node with
      | PyVal.dict nk =>
        if truthy (pyGet nk "name") then some (_str (pyGet nk "name") "")
        else Option.none
      | _ => Option.none) := by
    simp only [_parse_issue, h1, h2]
  rw [hl]
  unfold specLabelNames
  apply List.filterMap_congr
  intro n hn
  cases n with
  | dict nk =>
    cases hv : lookupKV nk "name" with
    | none => simp [pyGet, hv, truthy]
    | some v =>
      obtain ⟨s, rfl⟩ := hnames _ hn nk rfl v hv
      by_cases hs : s = ""
      · subst hs; simp [pyGet, hv, truthy]
      · simp [pyGet, hv, truthy, hs, _str, pyStr]
  | none => rfl
  | bool b => rfl
  | int n => rfl
  | float q => rfl
  | str s => rfl
  | list xs => rfl

/-- C5 witness: the general part applied to the §8 example input. -/
theorem c5_label_flattening_witness :
    (_parse_issue labelExampleNode).labels = specLabelNames
      [PyVal.dict [("name", PyVal.str "b")], PyVal.dict [("name", PyVal.str "a")],
       PyVal.dict [("notname", PyVal.str "x")]] := by
  apply c5_label_flattening.1 labelExampleNode
    [("nodes", PyVal.list
      [PyVal.dict [("name", PyVal.str "b")], PyVal.dict [("name", PyVal.str "a")],
       PyVal.dict [("notname", PyVal.str "x")]])]
  · rfl
  · rfl
  · intro n hn nk hnk v hv
    simp only [List.mem_cons, List.not_mem_nil, or_false] at hn
    rcases hn with rfl | rfl | rfl
    · cases hnk
      exact ⟨"b", by simp [lookupKV] at hv; first | exact hv | exact hv.symm⟩
    · cases hnk
      exact ⟨"a", by simp [lookupKV] at hv; first | exact hv | exact hv.symm⟩
    · cases hnk
      simp [lookupKV] at hv

/-- C3. Coercion totality: each of the six coercion functions is a total
function into its declared type (totality is by construction of the
model); absent input (`None`) returns exactly the supplied default, and
`_opt_str` returns null; `_int`/`_float` return the default when the
numeric conversion fails and otherwise its (truncating) value; present
input is coerced by `str` / truthiness; a `None` container makes
`_nested_str` return null. -/
theorem c3_coercion_totality :
    (∀ d, _str PyVal.none d = d)
    ∧ (∀ v d, v ≠ PyVal.none → _str v d = pyStr v)
    ∧ (∀ d, _int PyVal.none d = d)
    ∧ (∀ v d, pyIntConv v = Option.none → _int v d = d)
    ∧ (∀ v d n, pyIntConv v = some n → _int v d = n)
    ∧ (∀ q d, _int (PyVal.float q) d = pyTrunc q)
    ∧ (∀ d, _float PyVal.none d = d)
    ∧ (∀ v d, pyFloatConv v = Option.none → _float v d = d)
    ∧ (∀ v d q, pyFloatConv v = some q → _float v d = q)
    ∧ (∀ n d, _float (PyVal.int n) d = (n : Rat))
    ∧ (_opt_str PyVal.none = Option.none)
    ∧ (∀ v, v ≠ PyVal.none → _opt_str v = some (pyStr v))
    ∧ (∀ d, _bool PyVal.none d = d)
    ∧ (∀ v d, v ≠ PyVal.none → _bool v d = truthy v)
    ∧ (∀ key, _nested_str PyVal.none key = Option.none) := by
  refine ⟨fun d => rfl, ?_, fun d => rfl, ?_, ?_, fun q d => rfl, fun d => rfl,
    ?_, ?_, fun n d => rfl, rfl, ?_, fun d => rfl, ?_, fun key => rfl⟩
  · intro v d hv
    cases v with
    | none => exact absurd rfl hv
    | bool b => rfl
    | int n => rfl
    | float q => rfl
    | str s => rfl
    | list xs => rfl
    | dict kvs => rfl
  · intro v d h
    cases v <;> simp_all [_int, pyIntConv]
  · intro v d n h
    cases v <;> simp_all [_int, pyIntConv]
  · intro v d h
    cases v <;> simp_all [_float, pyFloatConv]
  · intro v d q h
    cases v <;> simp_all [_float, pyFloatConv]
  · intro v hv
    cases v with
    | none => exact absurd rfl hv
    | bool b => rfl
    | int n => rfl
    | float q => rfl
    | str s => rfl
    | list xs => rfl
    | dict kvs => rfl
  · intro v d hv
    cases v with
    | none => exact absurd rfl hv
    | bool b => rfl
    | int n => rfl
    | float q => rfl
    | str s => rfl
    | list xs => rfl
    | dict kvs => rfl

/-- C3 witness: the coercion contracts at concrete inputs — malformed
numeric text falls back to the default, well-formed text converts, a
float truncates, and present values coerce. -/
theorem c3_coercion_totality_witness :
    _int (PyVal.str "abc") 7 = 7
    ∧ _int (PyVal.str " 12 ") 0 = 12
    ∧ _int (PyVal.float (27 / 10)) 0 = pyTrunc (27 / 10)
    ∧ _float (PyVal.str "x") 3 = 3
    ∧ _float (PyVal.str "1.5e1") 0 = 15
    ∧ _str (PyVal.int (-5)) "" = pyStr (PyVal.int (-5))
    ∧ _opt_str (PyVal.str "a") = some (pyStr (PyVal.str "a"))
    ∧ _bool (PyVal.int 0) true = truthy (PyVal.int 0) :=
  ⟨c3_coercion_totality.2.2.2.1 (PyVal.str "abc") 7 rfl,
   c3_coercion_totality.2.2.2.2.1 (PyVal.str " 12 ") 0 12 rfl,
   c3_coercion_totality.2.2.2.2.2.1 (27 / 10) 0,
   c3_coercion_totality.2.2.2.2.2.2.2.1 (PyVal.str "x") 3 rfl,
   c3_coercion_totality.2.2.2.2.2.2.2.2.1 (PyVal.str "1.5e1") 0 15 (by rfl),
   c3_coercion_totality.2.1 (PyVal.int (-5)) "" (fun h => PyVal.noConfusion h),
   c3_coercion_totality.2.2.2.2.2.2.2.2.2.2.2.1 (PyVal.str "a")
     (fun h => PyVal.noConfusion h),
   c3_coercion_totality.2.2.2.2.2.2.2.2.2.2.2.2.2.1 (PyVal.int 0) true
     (fun h => PyVal.noConfusion h)⟩

/-- C1. Dispatch outcome classification: the four §4.2 classes — (1) a
transport-level failure (collaborator reports failure or no response)
yields `success=false` with the collaborator's message or
`"Request failed"`; (2) a mapping body with a non-empty `errors` list
yields `success=false` with the first error's message; (3) a mapping
body without an `errors` key yields `success=true` with the body's
`data` field; (4) a non-mapping body yields `success=true` with the raw
body — and every result is of one of these shapes (a failure carrying
an error message with no data, or a success carrying no error). -/
theorem c1_dispatch_outcomes :
    (∀ resp : DispatchResp, resp.success = false ∨ resp.response = Option.none →
      graphql_classify resp =
        LinearResult.mk false PyVal.none (some (resp.error.getD "Request failed")))
    ∧ (∀ (resp : DispatchResp) (kvs : List (String × PyVal)) (es : List PyVal),
        resp.success = true → resp.response = some (PyVal.dict kvs) →
        pyGet kvs "errors" = PyVal.list es → es ≠ [] →
        graphql_classify resp =
          LinearResult.mk false PyVal.none (some (firstErrorMessage es)))
    ∧ (∀ (resp : DispatchResp) (kvs : List (String × PyVal)),
        resp.success = true → resp.response = some (PyVal.dict kvs) →
        lookupKV kvs "errors" = Option.none →
        graphql_classify resp =
          LinearResult.mk true (pyGet kvs "data") Option.none)
    ∧ (∀ (resp : DispatchResp) (body : PyVal),
        resp.success = true → resp.response = some body → isDict body = false →
        graphql_classify resp = LinearResult.mk true body Option.none)
    ∧ (∀ resp : DispatchResp,
        ((graphql_classify resp).success = false ∧
          (graphql_classify resp).data = PyVal.none ∧
          ∃ m, (graphql_classify resp).error = some m)
        ∨ ((graphql_classify resp).success = true ∧
            (graphql_classify resp).error = Option.none)) := by
  refine ⟨?_, ?_, ?_, ?_, ?_⟩
  · intro resp h
    obtain ⟨s, r, e⟩ := resp
    simp only at h
    rcases h with h | h
    · subst h; cases r <;> rfl
    · subst h; cases s <;> rfl
  · intro resp kvs es h1 h2 h3 h4
    obtain ⟨s, r, e⟩ := resp
    simp only at h1 h2
    subst h1; subst h2
    show classifyMappingBody kvs = _
    unfold classifyMappingBody
    rw [h3]
    simp [List.isEmpty_iff, h4]
  · intro resp kvs h1 h2 h3
    obtain ⟨s, r, e⟩ := resp
    simp only at h1 h2
    subst h1; subst h2
    show classifyMappingBody kvs = _
    unfold classifyMappingBody
    have h4 : pyGet kvs "errors" = PyVal.none := by simp [pyGet, h3]
    rw [h4]
  · intro resp body h1 h2 h3
    obtain ⟨s, r, e⟩ := resp
    simp only at h1 h2
    subst h1; subst h2
    cases body with
    | dict kvs => simp [isDict] at h3
    | none => rfl
    | bool b => rfl
    | int n => rfl
    | float q => rfl
    | str s => rfl
    | list xs => rfl
  · intro resp
    obtain ⟨s, r, e⟩ := resp
    cases s with
    | false =>
      cases r <;> exact Or.inl ⟨rfl, rfl, _, rfl⟩
    | true =>
      cases r with
      | none => exact Or.inl ⟨rfl, rfl, _, rfl⟩
      | some body =>
        cases body with
        | dict kvs =>
          have hcl : graphql_classify (DispatchResp.mk true (some (PyVal.dict kvs)) e) =
              classifyMappingBody kvs := rfl
          rw [hcl]
          unfold classifyMappingBody
          cases hER : pyGet kvs "errors" with
          | list es =>
            cases es with
            | nil => exact Or.inr ⟨rfl, rfl⟩
            | cons e0 rest => exact Or.inl ⟨rfl, rfl, _, rfl⟩
          | none => exact Or.inr ⟨rfl, rfl⟩
          | bool b => exact Or.inr ⟨rfl, rfl⟩
          | int n => exact Or.inr ⟨rfl, rfl⟩
          | float q => exact Or.inr ⟨rfl, rfl⟩
          | str s => exact Or.inr ⟨rfl, rfl⟩
          | dict kvs2 => exact Or.inr ⟨rfl, rfl⟩
        | none => exact Or.inr ⟨rfl, rfl⟩
        | bool b => exact Or.inr ⟨rfl, rfl⟩
        | int n => exact Or.inr ⟨rfl, rfl⟩
        | float q => exact Or.inr ⟨rfl, rfl⟩
        | str s => exact Or.inr ⟨rfl, rfl⟩
        | list xs => exact Or.inr ⟨rfl, rfl⟩

/-- C1 witness: class (1) on a failed transport with a message, and
class (2) on §8's crafted response
`{"data": null, "errors": [{"message": "Entity not found"}]}`. -/
theorem c1_dispatch_outcomes_witness :
    graphql_classify (DispatchResp.mk false Option.none (some "boom")) =
      LinearResult.mk false PyVal.none (some "boom")
    ∧ graphql_classify (DispatchResp.mk true
        (some (PyVal.dict [("data", PyVal.none),
          ("errors", PyVal.list [PyVal.dict [("message", PyVal.str "Entity not found")]])]))
        Option.none) =
      LinearResult.mk false PyVal.none (some "Entity not found") := by
  constructor
  · exact c1_dispatch_outcomes.1 _ (Or.inl rfl)
  · exact c1_dispatch_outcomes.2.1 _
      [("data", PyVal.none),
       ("errors", PyVal.list [PyVal.dict [("message", PyVal.str "Entity not found")]])]
      [PyVal.dict [("message", PyVal.str "Entity not found")]]
      rfl rfl rfl (by simp)

/-- C2 counterexample: a transport-success body whose first GraphQL
error carries `message: ""` yields `success=false` with the EMPTY error
string — refuting "success=false implies the error field is a non-empty
string". -/
theorem c2_empty_error_counterexample :
    (graphql_classify emptyMessageReply).success = false
    ∧ (graphql_classify emptyMessageReply).error = some "" :=
  ⟨rfl, rfl⟩

/-- C2 (amended). For every result `graphql` returns: `success=true`
implies the error field is null, and `success=false` implies the data
field is null and the error field holds a string — which is non-empty
unless the upstream-sourced message (the transport collaborator's
message, or the first GraphQL error's `message` field) was itself the
empty string. -/
theorem c2_result_invariant_amended :
    ∀ resp : DispatchResp,
      ((graphql_classify resp).success = true →
        (graphql_classify resp).error = Option.none)
      ∧ ((graphql_classify resp).success = false →
          (graphql_classify resp).data = PyVal.none ∧
          ∃ m, (graphql_classify resp).error = some m ∧
            (m = "" → upstreamEmptyMessage resp)) := by
  intro resp
  obtain ⟨s, r, e⟩ := resp
  cases s with
  | false =>
    have hcl : graphql_classify (DispatchResp.mk false r e) =
        LinearResult.mk false PyVal.none (some (e.getD "Request failed")) := by
      cases r <;> rfl
    rw [hcl]
    refine ⟨fun h => Bool.noConfusion h,
      fun _ => ⟨rfl, e.getD "Request failed", rfl, ?_⟩⟩
    intro hm
    left
    cases e with
    | none => exact absurd (show ("Request failed" : String) = "" from hm) (by decide)
    | some msg => exact congrArg some hm
  | true =>
    cases r with
    | none =>
      refine ⟨fun h => Bool.noConfusion h,
        fun _ => ⟨rfl, e.getD "Request failed", rfl, ?_⟩⟩
      intro hm
      left
      cases e with
      | none => exact absurd (show ("Request failed" : String) = "" from hm) (by decide)
      | some msg => exact congrArg some hm
    | some body =>
      cases body with
      | dict kvs =>
        have hcl : graphql_classify (DispatchResp.mk true (some (PyVal.dict kvs)) e) =
            classifyMappingBody kvs := rfl
        rw [hcl]
        unfold classifyMappingBody
        cases hER : pyGet kvs "errors" with
        | list es =>
          cases es with
          | nil => exact ⟨fun _ => rfl, fun h => Bool.noConfusion h⟩
          | cons e0 rest =>
            refine ⟨fun h => Bool.noConfusion h,
              fun _ => ⟨rfl, firstErrorMessage (e0 :: rest), rfl, ?_⟩⟩
            intro hm
            right
            cases e0 with
            | dict ekvs =>
              cases hmv : lookupKV ekvs "message" with
              | none =>
                have hfm : firstErrorMessage (PyVal.dict ekvs :: rest) = "GraphQL error" := by
                  simp [firstErrorMessage, pyGetD, hmv, pyStr]
                rw [hfm] at hm
                exact absurd hm (by decide)
              | some v =>
                have hfm : firstErrorMessage (PyVal.dict ekvs :: rest) = pyStr v := by
                  simp [firstErrorMessage, pyGetD, hmv]
                rw [hfm] at hm
                obtain rfl := pyStr_eq_empty v hm
                exact ⟨kvs, PyVal.dict ekvs :: rest, ekvs, rest, rfl, hER, rfl, hmv⟩
            | none => exact absurd (show ("GraphQL error" : String) = "" from hm) (by decide)
            | bool b => exact absurd (show ("GraphQL error" : String) = "" from hm) (by decide)
            | int n => exact absurd (show ("GraphQL error" : String) = "" from hm) (by decide)
            | float q => exact absurd (show ("GraphQL error" : String) = "" from hm) (by decide)
            | str s => exact absurd (show ("GraphQL error" : String) = "" from hm) (by decide)
            | list xs => exact absurd (show ("GraphQL error" : String) = "" from hm) (by decide)
        | none => exact ⟨fun _ => rfl, fun h => Bool.noConfusion h⟩
        | bool b => exact ⟨fun _ => rfl, fun h => Bool.noConfusion h⟩
        | int n => exact ⟨fun _ => rfl, fun h => Bool.noConfusion h⟩
        | float q => exact ⟨fun _ => rfl, fun h => Bool.noConfusion h⟩
        | str s => exact ⟨fun _ => rfl, fun h => Bool.noConfusion h⟩
        | dict kvs2 => exact ⟨fun _ => rfl, fun h => Bool.noConfusion h⟩
      | none => exact ⟨fun _ => rfl, fun h => Bool.noConfusion h⟩
      | bool b => exact ⟨fun _ => rfl, fun h => Bool.noConfusion h⟩
      | int n => exact ⟨fun _ => rfl, fun h => Bool.noConfusion h⟩
      | float q => exact ⟨fun _ => rfl, fun h => Bool.noConfusion h⟩
      | str s => exact ⟨fun _ => rfl, fun h => Bool.noConfusion h⟩
      | list xs => exact ⟨fun _ => rfl, fun h => Bool.noConfusion h⟩

/-- C2 witness: the amended invariant applied to a concrete failed
transport — the failure carries no data. -/
theorem c2_result_invariant_amended_witness :
    (graphql_classify (DispatchResp.mk false Option.none Option.none)).data = PyVal.none :=
  ((c2_result_invariant_amended (DispatchResp.mk false Option.none Option.none)).2 rfl).1

/-- C4. Error message fallback: on a protocol-level failure whose first
`errors` entry is not a mapping, or is a mapping without a `"message"`
key, the error text is exactly `"GraphQL error"`. -/
theorem c4_graphql_error_fallback :
    ∀ (resp : DispatchResp) (kvs : List (String × PyVal)) (es : List PyVal) (e0 : PyVal),
      resp.success = true → resp.response = some (PyVal.dict kvs) →
      pyGet kvs "errors" = PyVal.list es → es.head? = some e0 →
      hasNoMessageField e0 →
      graphql_classify resp = LinearResult.mk false PyVal.none (some "GraphQL error") := by
  intro resp kvs es e0 h1 h2 h3 h4 h5
  obtain ⟨s, r, e⟩ := resp
  simp only at h1 h2
  subst h1; subst h2
  show classifyMappingBody kvs = _
  unfold classifyMappingBody
  rw [h3]
  cases es with
  | nil => simp at h4
  | cons x rest =>
    simp only [List.head?_cons, Option.some.injEq] at h4
    subst h4
    cases x with
    | dict ekvs =>
      have h5' : lookupKV ekvs "message" = Option.none := h5
      have hfm : firstErrorMessage (PyVal.dict ekvs :: rest) = "GraphQL error" := by
        simp [firstErrorMessage, pyGetD, h5', pyStr]
      simp [List.isEmpty_cons, hfm]
    | none => rfl
    | bool b => rfl
    | int n => rfl
    | float q => rfl
    | str s => rfl
    | list xs => rfl

/-- C4 witness: a structureless first error (a bare string) surfaces
exactly `"GraphQL error"`. -/
theorem c4_graphql_error_fallback_witness :
    graphql_classify (DispatchResp.mk true
        (some (PyVal.dict [("errors", PyVal.list [PyVal.str "oops"])])) Option.none)
      = LinearResult.mk false PyVal.none (some "GraphQL error") :=
  c4_graphql_error_fallback _ [("errors", PyVal.list [PyVal.str "oops"])]
    [PyVal.str "oops"] (PyVal.str "oops") rfl rfl rfl rfl trivial

/-- C9. Errors-key edge case: a transport-success mapping body whose
`errors` key is present but holds an empty list or a non-list value is a
success carrying the body's `data` field — the key's presence alone
never causes failure. -/
theorem c9_errors_key_edge :
    ∀ (resp : DispatchResp) (kvs : List (String × PyVal)) (v : PyVal),
      resp.success = true → resp.response = some (PyVal.dict kvs) →
      lookupKV kvs "errors" = some v →
      (v = PyVal.list [] ∨ isList v = false) →
      graphql_classify resp = LinearResult.mk true (pyGet kvs "data") Option.none := by
  intro resp kvs v h1 h2 h3 h4
  obtain ⟨s, r, e⟩ := resp
  simp only at h1 h2
  subst h1; subst h2
  show classifyMappingBody kvs = _
  unfold classifyMappingBody
  have hv : pyGet kvs "errors" = v := by simp [pyGet, h3]
  rw [hv]
  rcases h4 with rfl | h4
  · rfl
  · cases v with
    | list xs => simp [isList] at h4
    | none => rfl
    | bool b => rfl
    | int n => rfl
    | float q => rfl
    | str s2 => rfl
    | dict kvs2 => rfl

/-- C9 witness: `errors: []` and `errors: "boom"` both dispatch as
success with the `data` field. -/
theorem c9_errors_key_edge_witness :
    graphql_classify (DispatchResp.mk true
        (some (PyVal.dict [("errors", PyVal.list []), ("data", PyVal.str "D")]))
        Option.none)
      = LinearResult.mk true (PyVal.str "D") Option.none
    ∧ graphql_classify (DispatchResp.mk true
        (some (PyVal.dict [("errors", PyVal.str "boom"), ("data", PyVal.str "D")]))
        Option.none)
      = LinearResult.mk true (PyVal.str "D") Option.none :=
  ⟨c9_errors_key_edge _ [("errors", PyVal.list []), ("data", PyVal.str "D")]
      (PyVal.list []) rfl rfl rfl (Or.inl rfl),
   c9_errors_key_edge _ [("errors", PyVal.str "boom"), ("data", PyVal.str "D")]
      (PyVal.str "boom") rfl rfl rfl (Or.inr rfl)⟩

/-- C7 counterexample: with the issue branch a mapping and a wrongly
shaped (numeric, hence non-iterable) `team.states.nodes` value, the list
comprehension raises an uncaught `TypeError` — `linear_issue_context`
does not return an `IssueContextInfo` with empty `states`. -/
theorem c7_noniterable_nodes_counterexample :
    issue_context_from_result numericStateNodesResult = ToolOut.raised := rfl

/-- C7 (amended). When the issue branch is a mapping and the `team`
branch, its `states` sub-branch, or the `nodes` key is absent or not a
mapping — and the comments nodes value is iterable — the tool returns an
`IssueContextInfo` with `states = []` and issue/comments parsed
normally; symmetrically, an absent or non-mapping `comments` branch (or
absent `nodes` key) yields `comments = []` when the states side is
iterable.  (A present but non-iterable `nodes` value instead raises,
per the counterexample.) -/
theorem c7_partial_degradation_amended :
    ∀ (r : LinearResult) (dk ikvs : List (String × PyVal)),
      r.success = true → r.data = PyVal.dict dk → pyGet dk "issue" = PyVal.dict ikvs →
      ((teamStatesMissing ikvs → ∀ cns, pyIterate (commentNodesVal ikvs) = some cns →
        issue_context_from_result r =
          ToolOut.ok (IssueContextInfo.mk (_parse_issue ikvs) (parsedComments cns) []))
      ∧ (commentsBranchMissing ikvs → ∀ sns, pyIterate (stateNodesVal ikvs) = some sns →
        issue_context_from_result r =
          ToolOut.ok (IssueContextInfo.mk (_parse_issue ikvs) [] (parsedStates sns)))) := by
  intro r dk ikvs h1 h2 h3
  obtain ⟨s, d, e⟩ := r
  simp only at h1 h2
  subst h1; subst h2
  constructor
  · intro hmiss cns hcns
    have hsn : stateNodesVal ikvs = PyVal.list [] := stateNodesVal_of_missing ikvs hmiss
    simp only [issue_context_from_result, h3]
    rw [hcns, hsn]
    simp [pyIterate, parsedStates]
  · intro hmiss sns hsns
    have hcn : commentNodesVal ikvs = PyVal.list [] := commentNodesVal_of_missing ikvs hmiss
    simp only [issue_context_from_result, h3]
    rw [hsns, hcn]
    simp [pyIterate, parsedComments]

/-- C7 witness: the amended degradation on a response whose issue branch
is the empty mapping (no team, no comments). -/
theorem c7_partial_degradation_amended_witness :
    issue_context_from_result
        (LinearResult.mk true (PyVal.dict [("issue", PyVal.dict [])]) Option.none)
      = ToolOut.ok (IssueContextInfo.mk (_parse_issue []) (parsedComments []) []) :=
  (c7_partial_degradation_amended _ [("issue", PyVal.dict [])] [] rfl rfl rfl).1
    trivial [] rfl

/-- C8. Mutation-declared failure: when dispatch succeeded but the
mutation payload is not a mapping or carries a falsy `success`,
`linear_create_issue` returns exactly `"Issue creation failed"` and
`linear_update_issue` exactly `"Issue update failed"` — fixed
diagnostics distinct from the transport/protocol fallback strings, the
envelope-shape diagnostics, and each other. -/
theorem c8_mutation_declared_failure :
    (∀ (r : LinearResult) (dk : List (String × PyVal)),
      r.success = true → r.data = PyVal.dict dk →
      payloadDeclaresFailure (pyGet dk "issueCreate") →
      create_issue_from_result r = ToolOut.msg "Issue creation failed")
    ∧ (∀ (r : LinearResult) (dk : List (String × PyVal)),
      r.success = true → r.data = PyVal.dict dk →
      payloadDeclaresFailure (pyGet dk "issueUpdate") →
      update_issue_from_result r = ToolOut.msg "Issue update failed")
    ∧ ("Issue creation failed" ≠ "Request failed"
      ∧ "Issue creation failed" ≠ "GraphQL error"
      ∧ "Issue creation failed" ≠ "Unexpected response"
      ∧ "Issue creation failed" ≠ "No issue in response"
      ∧ "Issue update failed" ≠ "Request failed"
      ∧ "Issue update failed" ≠ "GraphQL error"
      ∧ "Issue update failed" ≠ "Unexpected response"
      ∧ "Issue update failed" ≠ "No issue in response"
      ∧ "Issue creation failed" ≠ "Issue update failed") := by
  refine ⟨?_, ?_, by decide⟩
  · intro r dk h1 h2 h3
    obtain ⟨s, d, e⟩ := r
    simp only at h1 h2
    subst h1; subst h2
    cases hp : pyGet dk "issueCreate" with
    | dict pk =>
      have h3' : truthy (pyGet pk "success") = false := by
        simpa [payloadDeclaresFailure, hp] using h3
      simp [create_issue_from_result, hp, h3']
    | none => simp [create_issue_from_result, hp]
    | bool b => simp [create_issue_from_result, hp]
    | int n => simp [create_issue_from_result, hp]
    | float q => simp [create_issue_from_result, hp]
    | str s2 => simp [create_issue_from_result, hp]
    | list xs => simp [create_issue_from_result, hp]
  · intro r dk h1 h2 h3
    obtain ⟨s, d, e⟩ := r
    simp only at h1 h2
    subst h1; subst h2
    cases hp : pyGet dk "issueUpdate" with
    | dict pk =>
      have h3' : truthy (pyGet pk "success") = false := by
        simpa [payloadDeclaresFailure, hp] using h3
      simp [update_issue_from_result, hp, h3']
    | none => simp [update_issue_from_result, hp]
    | bool b => simp [update_issue_from_result, hp]
    | int n => simp [update_issue_from_result, hp]
    | float q => simp [update_issue_from_result, hp]
    | str s2 => simp [update_issue_from_result, hp]
    | list xs => simp [update_issue_from_result, hp]

/-- C8 witness: a payload carrying `success: false` and a non-mapping
payload, for create and update respectively. -/
theorem c8_mutation_declared_failure_witness :
    create_issue_from_result
        (LinearResult.mk true
          (PyVal.dict [("issueCreate", PyVal.dict [("success", PyVal.bool false)])])
          Option.none)
      = ToolOut.msg "Issue creation failed"
    ∧ update_issue_from_result
        (LinearResult.mk true (PyVal.dict [("issueUpdate", PyVal.str "nope")])
          Option.none)
      = ToolOut.msg "Issue update failed" :=
  ⟨c8_mutation_declared_failure.1 _
      [("issueCreate", PyVal.dict [("success", PyVal.bool false)])] rfl rfl rfl,
   c8_mutation_declared_failure.2.1 _
      [("issueUpdate", PyVal.str "nope")] rfl rfl trivial⟩

end Linear
